import Mathlib

/-!
Verification of the `basic` Go package: an HTTP Basic Authentication
middleware (`basic.go`).  We shallowly embed the package's data model and
operations: the SHA-256 digest and the constant-time byte comparison used by
`CompareInputs`, the `BasicAuth` configuration record with its two
constructors, and the `Authenticate` middleware together with its response
helpers.  Machine integers are modelled as `Nat` with explicit reduction
modulo `2^32`; Go `nil` function and handler fields are modelled as `Option`.
-/

set_option maxRecDepth 100000

namespace BasicAuthLib

/-! ### SHA-256 over byte lists (models Go `crypto/sha256.Sum256`) -/

/-- Reduce a natural number to a 32-bit word. -/
def w32 (n : Nat) : Nat := n % 4294967296

/-- Right rotation of a 32-bit word by `n` bits. -/
def rotr (n x : Nat) : Nat := ((x >>> n) ||| (x <<< (32 - n))) % 4294967296

/-- Bitwise complement within 32 bits (for a word `x < 2^32`). -/
def compl32 (x : Nat) : Nat := 4294967295 - x

/-- SHA-256 choice function. -/
def shaCh (x y z : Nat) : Nat := (x &&& y) ^^^ (compl32 x &&& z)

/-- SHA-256 majority function. -/
def shaMaj (x y z : Nat) : Nat := (x &&& y) ^^^ (x &&& z) ^^^ (y &&& z)

/-- SHA-256 big sigma 0. -/
def bigSigma0 (x : Nat) : Nat := rotr 2 x ^^^ rotr 13 x ^^^ rotr 22 x

/-- SHA-256 big sigma 1. -/
def bigSigma1 (x : Nat) : Nat := rotr 6 x ^^^ rotr 11 x ^^^ rotr 25 x

/-- SHA-256 small sigma 0. -/
def smallSigma0 (x : Nat) : Nat := rotr 7 x ^^^ rotr 18 x ^^^ (x >>> 3)

/-- SHA-256 small sigma 1. -/
def smallSigma1 (x : Nat) : Nat := rotr 17 x ^^^ rotr 19 x ^^^ (x >>> 10)

/-- The 64 SHA-256 round constants (FIPS 180-4, written in decimal). -/
def K256 : List Nat :=
  [1116352408, 1899447441, 3049323471, 3921009573, 961987163, 1508970993,
   2453635748, 2870763221, 3624381080, 310598401, 607225278, 1426881987,
   1925078388, 2162078206, 2614888103, 3248222580, 3835390401, 4022224774,
   264347078, 604807628, 770255983, 1249150122, 1555081692, 1996064986,
   2554220882, 2821834349, 2952996808, 3210313671, 3336571891, 3584528711,
   113926993, 338241895, 666307205, 773529912, 1294757372, 1396182291,
   1695183700, 1986661051, 2177026350, 2456956037, 2730485921, 2820302411,
   3259730800, 3345764771, 3516065817, 3600352804, 4094571909, 275423344,
   430227734, 506948616, 659060556, 883997877, 958139571, 1322822218,
   1537002063, 1747873779, 1955562222, 2024104815, 2227730452, 2361852424,
   2428436474, 2756734187, 3204031479, 3329325298]

/-- The eight 32-bit working variables of the SHA-256 compression function. -/
structure Sha256State where
  s0 : Nat
  s1 : Nat
  s2 : Nat
  s3 : Nat
  s4 : Nat
  s5 : Nat
  s6 : Nat
  s7 : Nat
deriving DecidableEq, Repr

/-- SHA-256 initial hash value (FIPS 180-4, written in decimal). -/
def H0 : Sha256State :=
  ⟨1779033703, 3144134277, 1013904242, 2773480762,
   1359893119, 2600822924, 528734635, 1541459225⟩

/-- Big-endian byte decomposition of `n` into `k` bytes. -/
def beBytes (k n : Nat) : List Nat :=
  (List.range k).map (fun i => (n >>> (8 * (k - 1 - i))) % 256)

/-- Group a byte list into big-endian 32-bit words (four bytes per word). -/
def bytesToWords : List Nat → List Nat
  | a :: b :: c :: d :: rest => (((a * 256 + b) * 256 + c) * 256 + d) :: bytesToWords rest
  | _ => []

/-- Extend a 16-word block to the 64-word SHA-256 message schedule,
appending `k` further words. -/
def extendSchedule (ws : List Nat) : Nat → List Nat
  | 0 => ws
  | Nat.succ k =>
    let t := ws.length
    let wt := w32 (smallSigma1 (ws.getD (t - 2) 0) + ws.getD (t - 7) 0 +
                   smallSigma0 (ws.getD (t - 15) 0) + ws.getD (t - 16) 0)
    extendSchedule (ws ++ [wt]) k

/-- The 64 SHA-256 compression rounds, consuming schedule-word/constant pairs. -/
def rounds : List (Nat × Nat) → Sha256State → Sha256State
  | [], st => st
  | (wt, kt) :: rest, st =>
    let t1 := w32 (st.s7 + bigSigma1 st.s4 + shaCh st.s4 st.s5 st.s6 + kt + wt)
    let t2 := w32 (bigSigma0 st.s0 + shaMaj st.s0 st.s1 st.s2)
    rounds rest ⟨w32 (t1 + t2), st.s0, st.s1, st.s2, w32 (st.s3 + t1), st.s4, st.s5, st.s6⟩

/-- Componentwise 32-bit addition of two hash states. -/
def addStates (x y : Sha256State) : Sha256State :=
  ⟨w32 (x.s0 + y.s0), w32 (x.s1 + y.s1), w32 (x.s2 + y.s2), w32 (x.s3 + y.s3),
   w32 (x.s4 + y.s4), w32 (x.s5 + y.s5), w32 (x.s6 + y.s6), w32 (x.s7 + y.s7)⟩

/-- Process the padded message 64-byte block by 64-byte block; `fuel` bounds
the number of steps (each step consumes 64 bytes, so `bytes.length` is always
enough fuel). -/
def processBlocksFuel : Nat → Sha256State → List Nat → Sha256State
  | 0, h, _ => h
  | _, h, [] => h
  | Nat.succ fuel, h, b :: bs =>
    let block := (b :: bs).take 64
    let ws := extendSchedule (bytesToWords block) 48
    let st := rounds (ws.zip K256) h
    processBlocksFuel fuel (addStates h st) ((b :: bs).drop 64)

/-- Process the padded message 64-byte block by 64-byte block. -/
def processBlocks (h : Sha256State) (bytes : List Nat) : Sha256State :=
  processBlocksFuel bytes.length h bytes

/-- SHA-256 padding: append `0x80`, zero bytes up to 56 mod 64, then the
bit length as eight big-endian bytes. -/
def sha256pad (msg : List Nat) : List Nat :=
  let z := (120 - (msg.length + 1) % 64) % 64
  msg ++ [0x80] ++ List.replicate z 0 ++ beBytes 8 (msg.length * 8)

/-- Serialize the final hash state as 32 big-endian bytes. -/
def digestBytes (st : Sha256State) : List Nat :=
  beBytes 4 st.s0 ++ beBytes 4 st.s1 ++ beBytes 4 st.s2 ++ beBytes 4 st.s3 ++
  beBytes 4 st.s4 ++ beBytes 4 st.s5 ++ beBytes 4 st.s6 ++ beBytes 4 st.s7

/-- SHA-256 digest of a byte list, as a list of 32 bytes.  Models Go
`sha256.Sum256`. -/
def sha256 (msg : List Nat) : List Nat :=
  digestBytes (processBlocks H0 (sha256pad msg))

/-- UTF-8 encoding of a single code point. -/
def utf8EncodeChar (c : Nat) : List Nat :=
  if c < 0x80 then [c]
  else if c < 0x800 then
    [0xC0 ||| (c >>> 6), 0x80 ||| (c &&& 0x3F)]
  else if c < 0x10000 then
    [0xE0 ||| (c >>> 12), 0x80 ||| ((c >>> 6) &&& 0x3F), 0x80 ||| (c &&& 0x3F)]
  else
    [0xF0 ||| (c >>> 18), 0x80 ||| ((c >>> 12) &&& 0x3F),
     0x80 ||| ((c >>> 6) &&& 0x3F), 0x80 ||| (c &&& 0x3F)]

/-- The UTF-8 bytes of a string (models Go `[]byte(s)`). -/
def strBytes (s : String) : List Nat :=
  (s.data.map (fun c => utf8EncodeChar c.toNat)).flatten

/-! ### Constant-time comparison (models Go `crypto/subtle`) -/

/-- Models Go `subtle.ConstantTimeByteEq(x, y)`: `uint32(x^y) - 1` with 32-bit
wraparound, shifted right by 31; yields 1 when the bytes are equal, else 0. -/
def constantTimeByteEq (x y : Nat) : Nat :=
  (((x ^^^ y) + 4294967295) % 4294967296) >>> 31

/-- Models Go `subtle.ConstantTimeCompare(x, y)`: returns 0 when the lengths
differ; otherwise ORs together the XOR of every byte pair (the loop always
runs over the whole slice) and tests the accumulator against 0. -/
def constantTimeCompare (x y : List Nat) : Nat :=
  if x.length ≠ y.length then 0
  else
    constantTimeByteEq ((x.zip y).foldl (fun v p => v ||| (p.1 ^^^ p.2)) 0) 0

/-- Models Go `basic.CompareInputs`: hash both inputs with SHA-256, then
compare the digests with `subtle.ConstantTimeCompare`, testing for result 1. -/
def CompareInputs (input expected : String) : Bool :=
  constantTimeCompare (sha256 (strBytes input)) (sha256 (strBytes expected)) == 1

/-! ### HTTP model

The Go `net/http` collaborators are modelled minimally: a request carries the
result of `r.BasicAuth()` (the decoded Basic credentials, or `none` when the
`Authorization` header is missing, has a scheme other than `Basic`, or is
malformed); a response writer carries a header map, the written status code
and the accumulated body. -/

/-- A request, exposing only what the middleware consumes: the result of
`r.BasicAuth()`. -/
structure Request where
  basicAuth : Option (String × String)

/-- A response writer: header map (as a function from header name to value),
the status code once written, and the body written so far. -/
structure ResponseWriter where
  headers : String → Option String
  status : Option Nat
  body : String

/-- A Go `http.Handler` / `http.HandlerFunc`: consumes a request and
transforms the response writer. -/
abbrev Handler := Request → ResponseWriter → ResponseWriter

/-- `w.Header().Set(k, v)`: replace the value associated with key `k`. -/
def setHeader (w : ResponseWriter) (k v : String) : ResponseWriter :=
  { w with headers := fun k2 => if k2 = k then some v else w.headers k2 }

/-- `w.WriteHeader(code)`: writes the status code; a superfluous second call
is ignored. -/
def writeHeader (w : ResponseWriter) (code : Nat) : ResponseWriter :=
  if w.status.isSome then w else { w with status := some code }

/-- `w.Write` / `fmt.Fprintln(w, ...)`: an implicit `WriteHeader(200)` first
if no status was written, then append to the body. -/
def writeBody (w : ResponseWriter) (s : String) : ResponseWriter :=
  let w2 := if w.status.isSome then w else { w with status := some 200 }
  { w2 with body := w2.body ++ s }

/-- Models Go `http.Error(w, error, code)`: set `Content-Type` and
`X-Content-Type-Options`, write the status code, then print the message
followed by a newline. -/
def httpError (w : ResponseWriter) (error : String) (code : Nat) : ResponseWriter :=
  let w2 := setHeader (setHeader w "Content-Type" "text/plain; charset=utf-8")
      "X-Content-Type-Options" "nosniff"
  writeBody (writeHeader w2 code) (error ++ "\n")

/-! ### The `basic` package (models `basic.go`)

Go `nil`-able function and handler fields are modelled as `Option`; the Go
`map[string]string` is modelled as an association list (`nil` and the empty
map both become `[]`).  Calling a `nil` function field would panic in Go, so
the middleware returns `Option ResponseWriter`, with `none` for a panic. -/

/-- Models the struct `BasicAuth`: library configuration. -/
structure BasicAuth where
  Authenticator : Option (String → String → Bool)
  Charset : String
  InvalidCredentialsResponse : Option Handler
  InvalidSchemeResponse : Option Handler
  Realm : String
  Users : List (String × String)

/-- The authenticator installed by `NewDefaultBasicAuth`: if the user list is
populated and the username is a key, compare the supplied username against
`users[username]` (the stored value at that key) and the supplied password
against `val`, both via `CompareInputs`; otherwise return false. -/
def defaultAuthenticator (users : List (String × String)) (username password : String) : Bool :=
  if users.length ≠ 0 then
    match users.lookup username with
    | some val =>
      let usernamesMatch := CompareInputs username ((users.lookup username).getD "")
      let passwordsMatch := CompareInputs password val
      usernamesMatch && passwordsMatch
    | none => false
  else
    false

/-- The `InvalidCredentialsResponse` handler installed by
`NewDefaultBasicAuth`. -/
def defaultInvalidCredentialsResponse : Handler :=
  fun _ w => httpError w "Invalid username and/or password!" 401

/-- The `InvalidSchemeResponse` handler installed by `NewDefaultBasicAuth`. -/
def defaultInvalidSchemeResponse : Handler :=
  fun _ w => httpError w "Invalid authentication scheme!" 401

/-- Models `NewDefaultBasicAuth`: Basic Auth options with default
configurations. -/
def NewDefaultBasicAuth (users : List (String × String)) : BasicAuth :=
  { Authenticator := some (defaultAuthenticator users)
    Charset := "UTF-8"
    InvalidCredentialsResponse := some defaultInvalidCredentialsResponse
    InvalidSchemeResponse := some defaultInvalidSchemeResponse
    Realm := ""
    Users := users }

/-- Models `NewCustomBasicAuth`: Basic Auth options with customizable
configurations; `nil` (here `none`) authenticator and handlers, and an empty
user list, are replaced by the corresponding fields of the default
configuration. -/
def NewCustomBasicAuth (authenticator : Option (String → String → Bool))
    (charset : String)
    (invalidCredentialsResponse : Option Handler)
    (invalidSchemeResponse : Option Handler)
    (realm : String)
    (users : List (String × String)) : BasicAuth :=
  let defaultConfig := NewDefaultBasicAuth users
  let authenticator := match authenticator with
    | none => defaultConfig.Authenticator
    | some f => some f
  let invalidCredentialsResponse := match invalidCredentialsResponse with
    | none => defaultConfig.InvalidCredentialsResponse
    | some h => some h
  let invalidSchemeResponse := match invalidSchemeResponse with
    | none => defaultConfig.InvalidSchemeResponse
    | some h => some h
  let users := if users.length = 0 then defaultConfig.Users else users
  { Authenticator := authenticator
    Charset := charset
    InvalidCredentialsResponse := invalidCredentialsResponse
    InvalidSchemeResponse := invalidSchemeResponse
    Realm := realm
    Users := users }

/-- The exact challenge value `SetWWWAuthenticate` formats. -/
def challengeValue (a : BasicAuth) : String :=
  "Basic realm=\"" ++ a.Realm ++ "\", charset=\"" ++ a.Charset ++ "\""

/-- Models `BasicAuth.SetWWWAuthenticate`: set the `WWW-Authenticate` header
only when both `Realm` and `Charset` are non-empty. -/
def SetWWWAuthenticate (a : BasicAuth) (w : ResponseWriter) : ResponseWriter :=
  if a.Realm ≠ "" ∧ a.Charset ≠ "" then
    setHeader w "WWW-Authenticate" (challengeValue a)
  else
    w

/-- Models `BasicAuth.SendInvalidCredentialsResponse`: attach the challenge
header, then invoke the configured invalid-credentials handler (`none` when
that handler field is `nil`, which would panic in Go). -/
def SendInvalidCredentialsResponse (a : BasicAuth) (w : ResponseWriter) (r : Request) :
    Option ResponseWriter :=
  a.InvalidCredentialsResponse.map (fun h => h r (SetWWWAuthenticate a w))

/-- Models `BasicAuth.SendInvalidSchemeResponse`: attach the challenge
header, then invoke the configured invalid-scheme handler. -/
def SendInvalidSchemeResponse (a : BasicAuth) (w : ResponseWriter) (r : Request) :
    Option ResponseWriter :=
  a.InvalidSchemeResponse.map (fun h => h r (SetWWWAuthenticate a w))

/-- Models `BasicAuth.Authenticate`: grab the Basic credentials; on failure
send the invalid-scheme response; on a failed authentication send the
invalid-credentials response; otherwise invoke the next handler. -/
def Authenticate (a : BasicAuth) (next : Handler) (r : Request) (w : ResponseWriter) :
    Option ResponseWriter :=
  match r.basicAuth with
  | none => SendInvalidSchemeResponse a w r
  | some (username, password) =>
    match a.Authenticator with
    | none => none
    | some auth =>
      if auth username password then some (next r w)
      else SendInvalidCredentialsResponse a w r

/-! ### Instrumented comparison loop

`ctcLoop` is the loop of `subtle.ConstantTimeCompare` instrumented with an
iteration counter, to express that the number of operations the comparison
performs is independent of the data compared. -/

/-- The accumulator loop of `ConstantTimeCompare` together with the number of
iterations it executes. -/
def ctcLoop : List (Nat × Nat) → Nat → Nat × Nat
  | [], v => (v, 0)
  | p :: rest, v =>
    let rc := ctcLoop rest (v ||| (p.1 ^^^ p.2))
    (rc.1, rc.2 + 1)

/-- `ConstantTimeCompare` with its loop instrumented: result together with
the number of loop iterations executed. -/
def constantTimeCompareInstr (x y : List Nat) : Nat × Nat :=
  if x.length ≠ y.length then (0, 0)
  else (constantTimeByteEq (ctcLoop (x.zip y) 0).1 0, (ctcLoop (x.zip y) 0).2)

/-! ### Sample objects used by witnesses -/

/-- The static user table of the repository's own test file. -/
def sampleUsers : List (String × String) := [("gerysantoso", "gerysantoso")]

/-- A wrapped handler that writes status 200 (as the test file's handler). -/
def sampleNext : Handler := fun _ w => writeHeader w 200

/-- A fresh response writer: nothing written yet. -/
def emptyWriter : ResponseWriter := ⟨fun _ => none, none, ""⟩

/-- A request with no (or malformed) Basic credentials. -/
def reqNoAuth : Request := ⟨none⟩

/-- A request carrying decoded Basic credentials. -/
def reqWith (u p : String) : Request := ⟨some (u, p)⟩

/-- SHA-256 of the single-block message "abc", the FIPS 180 test vector. -/
theorem sha256_abc :
    sha256 (strBytes "abc") =
      [186, 120, 22, 191, 143, 1, 207, 234, 65, 65, 64, 222, 93, 174, 34, 35,
       176, 3, 97, 163, 150, 23, 122, 156, 180, 16, 255, 97, 242, 0, 21, 173] := by decide

/-! ### Helper lemmas on the bitwise comparison loop -/

/-- A bitwise OR of naturals vanishes exactly when both operands vanish. -/
theorem lor_eq_zero_iff (x y : Nat) : x ||| y = 0 ↔ x = 0 ∧ y = 0 := by
  constructor
  · intro h
    have hx : x = 0 := by
      by_contra hx
      obtain ⟨i, hi⟩ := Nat.ne_zero_implies_bit_true hx
      have hb : (x ||| y).testBit i = true := by
        rw [Nat.testBit_or, hi]
        simp
      rw [h] at hb
      simp [Nat.zero_testBit] at hb
    refine ⟨hx, ?_⟩
    rw [hx] at h
    simpa using h
  · rintro ⟨rfl, rfl⟩
    rfl

/-- The accumulator of the comparison loop vanishes exactly when it started
at zero and every byte pair agrees. -/
theorem ctcFold_eq_zero_iff (l : List (Nat × Nat)) (v : Nat) :
    l.foldl (fun v p => v ||| (p.1 ^^^ p.2)) v = 0 ↔ v = 0 ∧ ∀ p ∈ l, p.1 = p.2 := by
  induction l generalizing v with
  | nil => simp
  | cons p l ih =>
    rw [List.foldl_cons, ih, lor_eq_zero_iff, List.forall_mem_cons, Nat.xor_eq_zero]
    tauto

/-- The accumulator of the comparison loop stays below 256 on byte inputs. -/
theorem ctcFold_lt (l : List (Nat × Nat)) (v : Nat) (hv : v < 256)
    (hl : ∀ p ∈ l, p.1 < 256 ∧ p.2 < 256) :
    l.foldl (fun v p => v ||| (p.1 ^^^ p.2)) v < 256 := by
  induction l generalizing v with
  | nil => simpa using hv
  | cons p l ih =>
    rw [List.foldl_cons]
    refine ih _ ?_ (fun q hq => hl q (List.mem_cons_of_mem p hq))
    have h1 := hl p (List.mem_cons_self p l)
    have h2 : p.1 ^^^ p.2 < 2 ^ 8 := Nat.xor_lt_two_pow h1.1 h1.2
    have h3 : v ||| (p.1 ^^^ p.2) < 2 ^ 8 := Nat.or_lt_two_pow hv h2
    omega

/-- `ConstantTimeByteEq v 0` yields 1 exactly when `v = 0`, for byte-sized
accumulators. -/
theorem constantTimeByteEq_zero_iff (v : Nat) (hv : v < 256) :
    constantTimeByteEq v 0 = 1 ↔ v = 0 := by
  unfold constantTimeByteEq
  rw [Nat.xor_zero]
  rcases Nat.eq_zero_or_pos v with h | h
  · subst h
    norm_num [Nat.shiftRight_eq_div_pow]
  · have hmod : (v + 4294967295) % 4294967296 = v - 1 := by omega
    rw [hmod, Nat.shiftRight_eq_div_pow]
    have hdiv : (v - 1) / 2 ^ 31 = 0 := Nat.div_eq_of_lt (by omega)
    omega

/-- Lists of equal length whose zipped pairs all agree are equal. -/
theorem eq_of_zip_eq (x : List Nat) : ∀ (y : List Nat), x.length = y.length →
    (∀ p ∈ x.zip y, p.1 = p.2) → x = y := by
  induction x with
  | nil =>
    intro y hlen _
    cases y with
    | nil => rfl
    | cons b y => simp at hlen
  | cons a x ih =>
    intro y hlen h
    cases y with
    | nil => simp at hlen
    | cons b y =>
      have hab : a = b := h (a, b) (by simp [List.zip_cons_cons])
      have hx : x = y := by
        refine ih y (by simpa using hlen) (fun p hp => h p ?_)
        simp only [List.zip_cons_cons, List.mem_cons]
        exact Or.inr hp
      rw [hab, hx]

/-- Every pair of the zip of a list with itself agrees. -/
theorem zip_self_eq (x : List Nat) : ∀ p ∈ x.zip x, p.1 = p.2 := by
  induction x with
  | nil => simp
  | cons a x ih =>
    intro p hp
    simp only [List.zip_cons_cons, List.mem_cons] at hp
    rcases hp with rfl | hp
    · rfl
    · exact ih p hp

/-- `ConstantTimeCompare` on byte lists yields 1 exactly on equal lists. -/
theorem constantTimeCompare_eq_one_iff (x y : List Nat)
    (hx : ∀ a ∈ x, a < 256) (hy : ∀ b ∈ y, b < 256) :
    constantTimeCompare x y = 1 ↔ x = y := by
  unfold constantTimeCompare
  by_cases hlen : x.length = y.length
  · rw [if_neg (by simpa using hlen)]
    have hpairs : ∀ p ∈ x.zip y, p.1 < 256 ∧ p.2 < 256 := by
      intro p hp
      have := List.of_mem_zip hp
      exact ⟨hx p.1 this.1, hy p.2 this.2⟩
    rw [constantTimeByteEq_zero_iff _ (ctcFold_lt _ 0 (by norm_num) hpairs),
        ctcFold_eq_zero_iff]
    constructor
    · rintro ⟨-, hall⟩
      exact eq_of_zip_eq x y hlen hall
    · rintro rfl
      exact ⟨rfl, zip_self_eq x⟩
  · rw [if_pos (by simpa using hlen)]
    constructor
    · intro h
      simp at h
    · intro h
      exact absurd (by rw [h]) hlen

/-- Every byte produced by `beBytes` is below 256. -/
theorem beBytes_mem_lt (k n : Nat) : ∀ b ∈ beBytes k n, b < 256 := by
  intro b hb
  simp only [beBytes, List.mem_map, List.mem_range] at hb
  obtain ⟨i, -, rfl⟩ := hb
  exact Nat.mod_lt _ (by norm_num)

/-- Every byte of a SHA-256 digest is below 256. -/
theorem sha256_mem_lt (m : List Nat) : ∀ b ∈ sha256 m, b < 256 := by
  intro b hb
  simp only [sha256, digestBytes, List.mem_append] at hb
  rcases hb with ((((((h | h) | h) | h) | h) | h) | h) | h <;>
    exact beBytes_mem_lt _ _ b h

/-- A SHA-256 digest has exactly 32 bytes, for every message. -/
theorem sha256_length (m : List Nat) : (sha256 m).length = 32 := by
  simp [sha256, digestBytes, beBytes]

/-- `CompareInputs` is true exactly when the two SHA-256 digests coincide. -/
theorem CompareInputs_eq_true_iff (a b : String) :
    CompareInputs a b = true ↔ sha256 (strBytes a) = sha256 (strBytes b) := by
  unfold CompareInputs
  rw [beq_iff_eq]
  exact constantTimeCompare_eq_one_iff _ _ (sha256_mem_lt _) (sha256_mem_lt _)

/-- `CompareInputs` accepts equal strings. -/
theorem CompareInputs_self (a : String) : CompareInputs a a = true :=
  (CompareInputs_eq_true_iff a a).mpr rfl

/-- After a successful lookup, the default authenticator is the conjunction
of the username-versus-stored-value and password-versus-stored-value
comparisons. -/
theorem defaultAuthenticator_lookup (users : List (String × String)) (u p v : String)
    (h : users.lookup u = some v) :
    defaultAuthenticator users u p = (CompareInputs u v && CompareInputs p v) := by
  have husers : users.length ≠ 0 := by
    cases users with
    | nil => simp [List.lookup] at h
    | cons q l => simp
  unfold defaultAuthenticator
  rw [if_pos husers]
  simp only [h, Option.getD_some]

/-- The iteration count of the instrumented comparison loop is the list
length, independently of the data. -/
theorem ctcLoop_snd (l : List (Nat × Nat)) : ∀ v, (ctcLoop l v).2 = l.length := by
  induction l with
  | nil => intro v; rfl
  | cons p l ih => intro v; simp [ctcLoop, ih]

/-- The instrumented comparison loop computes the same accumulator as the
fold used by `constantTimeCompare`. -/
theorem ctcLoop_fst (l : List (Nat × Nat)) :
    ∀ v, (ctcLoop l v).1 = l.foldl (fun v p => v ||| (p.1 ^^^ p.2)) v := by
  induction l with
  | nil => intro v; rfl
  | cons p l ih => intro v; simp [ctcLoop, List.foldl_cons, ih]

/-! ### Claim theorems -/

/-- C1: The claim says every registered `(username, password)` pair verifies.
The code instead compares the supplied username against the stored password
(`users[username]`), so the registered pair `("a_username", "a_password")` —
the very pair of the repository's own post-fix test file, which expects
status 200 for it — is rejected by the default authenticator installed by
`NewDefaultBasicAuth`. -/
theorem C1_registered_pair_rejected :
    (NewDefaultBasicAuth [("a_username", "a_password")]).Authenticator =
      some (defaultAuthenticator [("a_username", "a_password")]) ∧
    defaultAuthenticator [("a_username", "a_password")] "a_username" "a_password" = false := by
  exact ⟨rfl, by decide⟩

/-- C2 counterexample: the username-comparison step is not tautological.
With the user table `[("a", "b")]` the lookup of `"a"` succeeds and the
password comparison succeeds, yet the verifier returns false, because the
username comparison compares `"a"` against the stored value `"b"` and
fails.  So the result for a found key is not determined solely by the
password comparison. -/
theorem C2_counterexample :
    List.lookup "a" [("a", "b")] = some "b" ∧
    CompareInputs "b" "b" = true ∧
    defaultAuthenticator [("a", "b")] "a" "b" = false := by
  exact ⟨rfl, by decide, by decide⟩

/-- C2 amended: in the default verifier, after a successful lookup of the
supplied username with stored value `v`, the result is the conjunction of
the comparison of the supplied username against `v` (the stored password,
which can fail) and the comparison of the supplied password against `v`. -/
theorem C2_amended_found_key (users : List (String × String)) (u p v : String)
    (h : users.lookup u = some v) :
    defaultAuthenticator users u p = (CompareInputs u v && CompareInputs p v) :=
  defaultAuthenticator_lookup users u p v h

/-- C2 witness: the amended statement applied to the table `[("a", "b")]`. -/
theorem C2_amended_witness :
    defaultAuthenticator [("a", "b")] "a" "b" =
      (CompareInputs "a" "b" && CompareInputs "b" "b") :=
  C2_amended_found_key [("a", "b")] "a" "b" "b" (by decide)

/-- C3: the gate takes exactly one of three terminal paths.  When credential
extraction fails it sends the invalid-scheme response and its result does not
depend on `next`; when extraction succeeds but the authenticator rejects it
sends the invalid-credentials response (the same response regardless of why
the authenticator rejected) and its result does not depend on `next`; when
the authenticator accepts it invokes `next`. -/
theorem C3_gate_three_paths (a : BasicAuth) (f : String → String → Bool)
    (next next' : Handler) (r : Request) (w : ResponseWriter)
    (hf : a.Authenticator = some f) :
    (r.basicAuth = none →
      Authenticate a next r w = SendInvalidSchemeResponse a w r ∧
      Authenticate a next r w = Authenticate a next' r w) ∧
    (∀ u p, r.basicAuth = some (u, p) → f u p = false →
      Authenticate a next r w = SendInvalidCredentialsResponse a w r ∧
      Authenticate a next r w = Authenticate a next' r w) ∧
    (∀ u p, r.basicAuth = some (u, p) → f u p = true →
      Authenticate a next r w = some (next r w)) := by
  refine ⟨?_, ?_, ?_⟩
  · intro hr
    unfold Authenticate
    rw [hr]
    exact ⟨rfl, rfl⟩
  · intro u p hr hrej
    unfold Authenticate
    rw [hr, hf]
    simp [hrej]
  · intro u p hr hok
    unfold Authenticate
    rw [hr, hf]
    simp [hok]

/-- C3 witness: the three paths at the default configuration over the test
file's user table — no credentials, wrong credentials, correct credentials. -/
theorem C3_gate_three_paths_witness :
    (Authenticate (NewDefaultBasicAuth sampleUsers) sampleNext reqNoAuth emptyWriter =
      SendInvalidSchemeResponse (NewDefaultBasicAuth sampleUsers) emptyWriter reqNoAuth) ∧
    (Authenticate (NewDefaultBasicAuth sampleUsers) sampleNext (reqWith "gery" "gery") emptyWriter =
      SendInvalidCredentialsResponse (NewDefaultBasicAuth sampleUsers) emptyWriter
        (reqWith "gery" "gery")) ∧
    (Authenticate (NewDefaultBasicAuth sampleUsers) sampleNext
        (reqWith "gerysantoso" "gerysantoso") emptyWriter =
      some (sampleNext (reqWith "gerysantoso" "gerysantoso") emptyWriter)) := by
  refine ⟨?_, ?_, ?_⟩
  · exact ((C3_gate_three_paths (NewDefaultBasicAuth sampleUsers)
      (defaultAuthenticator sampleUsers) sampleNext sampleNext reqNoAuth emptyWriter rfl).1
      rfl).1
  · exact ((C3_gate_three_paths (NewDefaultBasicAuth sampleUsers)
      (defaultAuthenticator sampleUsers) sampleNext sampleNext (reqWith "gery" "gery")
      emptyWriter rfl).2.1 "gery" "gery" rfl (by decide)).1
  · exact (C3_gate_three_paths (NewDefaultBasicAuth sampleUsers)
      (defaultAuthenticator sampleUsers) sampleNext sampleNext
      (reqWith "gerysantoso" "gerysantoso") emptyWriter rfl).2.2
      "gerysantoso" "gerysantoso" rfl (by decide)

/-- C4: on a writer without a prior challenge header, `SetWWWAuthenticate`
sets the `WWW-Authenticate` header exactly when both `Realm` and `Charset`
are non-empty, with the exact value `Basic realm="<realm>",
charset="<charset>"`; when either is empty the writer is untouched; and both
rejection paths route the writer through `SetWWWAuthenticate` before
invoking the configured handler. -/
theorem C4_challenge_header_iff (a : BasicAuth) (r : Request) (w : ResponseWriter)
    (hw : w.headers "WWW-Authenticate" = none) :
    ((SetWWWAuthenticate a w).headers "WWW-Authenticate" =
      if a.Realm ≠ "" ∧ a.Charset ≠ "" then some (challengeValue a) else none) ∧
    challengeValue a =
      "Basic realm=\"" ++ a.Realm ++ "\", charset=\"" ++ a.Charset ++ "\"" ∧
    (a.Realm = "" ∨ a.Charset = "" → SetWWWAuthenticate a w = w) ∧
    SendInvalidSchemeResponse a w r =
      a.InvalidSchemeResponse.map (fun h => h r (SetWWWAuthenticate a w)) ∧
    SendInvalidCredentialsResponse a w r =
      a.InvalidCredentialsResponse.map (fun h => h r (SetWWWAuthenticate a w)) := by
  refine ⟨?_, rfl, ?_, rfl, rfl⟩
  · unfold SetWWWAuthenticate
    by_cases hc : a.Realm ≠ "" ∧ a.Charset ≠ ""
    · rw [if_pos hc, if_pos hc]
      simp [setHeader]
    · rw [if_neg hc, if_neg hc]
      exact hw
  · intro h
    unfold SetWWWAuthenticate
    rw [if_neg]
    rcases h with h | h <;> simp [h]

/-- C4 witness: with realm "Test" and charset "UTF-8" the header carries the
formatted challenge; with both empty (the default realm) it stays absent. -/
theorem C4_challenge_header_witness :
    ((SetWWWAuthenticate (NewCustomBasicAuth none "UTF-8" none none "Test" sampleUsers)
        emptyWriter).headers "WWW-Authenticate" =
      if ("Test" : String) ≠ "" ∧ ("UTF-8" : String) ≠ "" then
        some (challengeValue (NewCustomBasicAuth none "UTF-8" none none "Test" sampleUsers))
      else none) ∧
    SetWWWAuthenticate (NewDefaultBasicAuth sampleUsers) emptyWriter = emptyWriter := by
  refine ⟨?_, ?_⟩
  · exact (C4_challenge_header_iff
      (NewCustomBasicAuth none "UTF-8" none none "Test" sampleUsers) reqNoAuth
      emptyWriter rfl).1
  · exact (C4_challenge_header_iff (NewDefaultBasicAuth sampleUsers) reqNoAuth
      emptyWriter rfl).2.2.1 (Or.inl rfl)

/-- C5: for a username found in the table with stored value `v`, the default
authenticator accepts exactly when both the supplied username and the
supplied password have the same SHA-256 digest as `v` (so a registered user
whose username's digest differs from their stored password's digest can never
authenticate); and it rejects whenever the table is empty or the username is
absent. -/
theorem C5_default_authenticator_characterization (users : List (String × String))
    (u p : String) :
    (users = [] → defaultAuthenticator users u p = false) ∧
    (users.lookup u = none → defaultAuthenticator users u p = false) ∧
    (∀ v, users.lookup u = some v →
      (defaultAuthenticator users u p = true ↔
        sha256 (strBytes u) = sha256 (strBytes v) ∧
        sha256 (strBytes p) = sha256 (strBytes v))) := by
  refine ⟨?_, ?_, ?_⟩
  · rintro rfl
    rfl
  · intro h
    unfold defaultAuthenticator
    rw [h]
    simp
  · intro v hv
    rw [defaultAuthenticator_lookup users u p v hv, Bool.and_eq_true,
      CompareInputs_eq_true_iff, CompareInputs_eq_true_iff]

/-- C5 witness: the characterization at the empty table, at an absent
username, and at the found key of the test file's table. -/
theorem C5_default_authenticator_witness :
    defaultAuthenticator [] "u" "p" = false ∧
    defaultAuthenticator sampleUsers "absent" "p" = false ∧
    (defaultAuthenticator sampleUsers "gerysantoso" "gerysantoso" = true ↔
      sha256 (strBytes "gerysantoso") = sha256 (strBytes "gerysantoso") ∧
      sha256 (strBytes "gerysantoso") = sha256 (strBytes "gerysantoso")) := by
  refine ⟨?_, ?_, ?_⟩
  · exact (C5_default_authenticator_characterization [] "u" "p").1 rfl
  · exact (C5_default_authenticator_characterization sampleUsers "absent" "p").2.1
      (by decide)
  · exact (C5_default_authenticator_characterization sampleUsers "gerysantoso"
      "gerysantoso").2.2 "gerysantoso" (by decide)

/-- C6 counterexample: the configuration built by `NewDefaultBasicAuth` is
not equal to the one built by `NewCustomBasicAuth` with every optional
argument at its sentinel — the custom constructor passes the empty charset
through while the default constructor sets "UTF-8". -/
theorem C6_counterexample :
    (NewCustomBasicAuth none "" none none "" sampleUsers).Charset = "" ∧
    (NewDefaultBasicAuth sampleUsers).Charset = "UTF-8" ∧
    NewCustomBasicAuth none "" none none "" sampleUsers ≠
      NewDefaultBasicAuth sampleUsers := by
  refine ⟨rfl, rfl, fun h => ?_⟩
  have hc := congrArg BasicAuth.Charset h
  simp [NewCustomBasicAuth, NewDefaultBasicAuth] at hc

/-- C6 amended: the custom constructor at all sentinels agrees with the
default constructor on every field except `Charset` (empty versus "UTF-8"),
and — because the default `Realm` is empty, which suppresses the challenge
header — the two configurations give the same middleware behaviour on every
request. -/
theorem C6_amended_equivalence (users : List (String × String)) :
    (NewCustomBasicAuth none "" none none "" users).Authenticator =
      (NewDefaultBasicAuth users).Authenticator ∧
    (NewCustomBasicAuth none "" none none "" users).InvalidCredentialsResponse =
      (NewDefaultBasicAuth users).InvalidCredentialsResponse ∧
    (NewCustomBasicAuth none "" none none "" users).InvalidSchemeResponse =
      (NewDefaultBasicAuth users).InvalidSchemeResponse ∧
    (NewCustomBasicAuth none "" none none "" users).Realm =
      (NewDefaultBasicAuth users).Realm ∧
    (NewCustomBasicAuth none "" none none "" users).Users =
      (NewDefaultBasicAuth users).Users ∧
    (NewCustomBasicAuth none "" none none "" users).Charset = "" ∧
    (NewDefaultBasicAuth users).Charset = "UTF-8" ∧
    ∀ (next : Handler) (r : Request) (w : ResponseWriter),
      Authenticate (NewCustomBasicAuth none "" none none "" users) next r w =
        Authenticate (NewDefaultBasicAuth users) next r w := by
  refine ⟨rfl, rfl, rfl, rfl, ?_, rfl, rfl, ?_⟩
  · by_cases h : users.length = 0
    · simp [NewCustomBasicAuth, NewDefaultBasicAuth, h]
    · simp [NewCustomBasicAuth, NewDefaultBasicAuth, h]
  · intro next r w
    unfold Authenticate SendInvalidSchemeResponse SendInvalidCredentialsResponse
      SetWWWAuthenticate
    simp [NewCustomBasicAuth, NewDefaultBasicAuth]

/-- C7: construction never fails and always yields a well-formed
configuration: for every combination of arguments both constructors return a
configuration whose authenticator and two handlers are set, with the default
substituted exactly when the caller passed the sentinel and the caller's
value kept otherwise. -/
theorem C7_construction_wellformed (authenticator : Option (String → String → Bool))
    (charset : String) (invalidCredentialsResponse invalidSchemeResponse : Option Handler)
    (realm : String) (users : List (String × String)) :
    (NewCustomBasicAuth authenticator charset invalidCredentialsResponse
      invalidSchemeResponse realm users).Authenticator.isSome = true ∧
    (NewCustomBasicAuth authenticator charset invalidCredentialsResponse
      invalidSchemeResponse realm users).InvalidCredentialsResponse.isSome = true ∧
    (NewCustomBasicAuth authenticator charset invalidCredentialsResponse
      invalidSchemeResponse realm users).InvalidSchemeResponse.isSome = true ∧
    (NewDefaultBasicAuth users).Authenticator.isSome = true ∧
    (NewDefaultBasicAuth users).InvalidCredentialsResponse.isSome = true ∧
    (NewDefaultBasicAuth users).InvalidSchemeResponse.isSome = true ∧
    (authenticator = none →
      (NewCustomBasicAuth authenticator charset invalidCredentialsResponse
        invalidSchemeResponse realm users).Authenticator =
        (NewDefaultBasicAuth users).Authenticator) ∧
    (∀ f, authenticator = some f →
      (NewCustomBasicAuth authenticator charset invalidCredentialsResponse
        invalidSchemeResponse realm users).Authenticator = some f) ∧
    (invalidCredentialsResponse = none →
      (NewCustomBasicAuth authenticator charset invalidCredentialsResponse
        invalidSchemeResponse realm users).InvalidCredentialsResponse =
        (NewDefaultBasicAuth users).InvalidCredentialsResponse) ∧
    (invalidSchemeResponse = none →
      (NewCustomBasicAuth authenticator charset invalidCredentialsResponse
        invalidSchemeResponse realm users).InvalidSchemeResponse =
        (NewDefaultBasicAuth users).InvalidSchemeResponse) := by
  cases authenticator <;> cases invalidCredentialsResponse <;>
    cases invalidSchemeResponse <;>
    simp [NewCustomBasicAuth, NewDefaultBasicAuth]

/-- C7 witness: the all-sentinel construction of the repository's own test
file is fully populated, with every default substituted. -/
theorem C7_construction_witness :
    (NewCustomBasicAuth none "" none none "" []).Authenticator.isSome = true ∧
    (NewCustomBasicAuth none "" none none "" []).Authenticator =
      (NewDefaultBasicAuth []).Authenticator := by
  refine ⟨?_, ?_⟩
  · exact (C7_construction_wellformed none "" none none "" []).1
  · exact (C7_construction_wellformed none "" none none "" []).2.2.2.2.2.2.1 rfl

/-- C8: each default rejection handler, run on a fresh writer, writes HTTP
status 401 and exactly its fixed short text (plus the newline `http.Error`
appends) and nothing else in the body. -/
theorem C8_default_handlers_fixed_response (r : Request) (w : ResponseWriter)
    (hst : w.status = none) (hb : w.body = "") :
    (defaultInvalidCredentialsResponse r w).status = some 401 ∧
    (defaultInvalidCredentialsResponse r w).body =
      "Invalid username and/or password!\n" ∧
    (defaultInvalidSchemeResponse r w).status = some 401 ∧
    (defaultInvalidSchemeResponse r w).body = "Invalid authentication scheme!\n" := by
  unfold defaultInvalidCredentialsResponse defaultInvalidSchemeResponse httpError
    writeBody writeHeader setHeader
  simp [hst, hb]

/-- C8 witness: the two default handlers on the fresh writer. -/
theorem C8_default_handlers_witness :
    (defaultInvalidCredentialsResponse reqNoAuth emptyWriter).status = some 401 ∧
    (defaultInvalidSchemeResponse reqNoAuth emptyWriter).body =
      "Invalid authentication scheme!\n" := by
  refine ⟨?_, ?_⟩
  · exact (C8_default_handlers_fixed_response reqNoAuth emptyWriter rfl rfl).1
  · exact (C8_default_handlers_fixed_response reqNoAuth emptyWriter rfl rfl).2.2.2

/-- C9: on the authorized path, the gate returns exactly the wrapped
handler's transformation of the original, unmodified request and writer: it
sets no header, writes no status, and contributes nothing to the response. -/
theorem C9_authorized_passthrough (a : BasicAuth) (f : String → String → Bool)
    (next : Handler) (r : Request) (w : ResponseWriter) (u p : String)
    (hr : r.basicAuth = some (u, p)) (hf : a.Authenticator = some f)
    (hok : f u p = true) :
    Authenticate a next r w = some (next r w) := by
  unfold Authenticate
  rw [hr, hf]
  simp [hok]

/-- C9 witness: the authorized path at the test file's registered user. -/
theorem C9_authorized_witness :
    Authenticate (NewDefaultBasicAuth sampleUsers) sampleNext
      (reqWith "gerysantoso" "gerysantoso") emptyWriter =
      some (sampleNext (reqWith "gerysantoso" "gerysantoso") emptyWriter) :=
  C9_authorized_passthrough (NewDefaultBasicAuth sampleUsers)
    (defaultAuthenticator sampleUsers) sampleNext
    (reqWith "gerysantoso" "gerysantoso") emptyWriter "gerysantoso" "gerysantoso"
    rfl rfl (by decide)

/-- C10: the credential comparison routes through digest-then-compare: each
input is hashed to a 32-byte SHA-256 digest, and the comparison loop, made
explicit by the instrumented model, executes exactly 32 iterations for every
pair of inputs — its operation count is independent of the compared data, in
particular of where the first differing byte occurs. -/
theorem C10_comparison_constant_cost (x y : List Nat) (a b : String) :
    (constantTimeCompareInstr x y).1 = constantTimeCompare x y ∧
    (CompareInputs a b =
      (constantTimeCompare (sha256 (strBytes a)) (sha256 (strBytes b)) == 1)) ∧
    (sha256 (strBytes a)).length = 32 ∧
    (constantTimeCompareInstr (sha256 (strBytes a)) (sha256 (strBytes b))).2 = 32 := by
  refine ⟨?_, rfl, sha256_length _, ?_⟩
  · unfold constantTimeCompareInstr constantTimeCompare
    by_cases h : x.length = y.length
    · rw [if_neg (by simpa using h), if_neg (by simpa using h), ctcLoop_fst]
    · rw [if_pos (by simpa using h), if_pos (by simpa using h)]
  · unfold constantTimeCompareInstr
    rw [if_neg (by simp [sha256_length]), ctcLoop_snd, List.length_zip,
      sha256_length, sha256_length]
    simp

end BasicAuthLib
